import Mathlib

/-!
Verification of the package-manager classification engine of
`package-manager-stats` (`src/index.ts`).

The classifier is embedded shallowly: the per-repository callback of
`asyncForEach` becomes a pure function `classifyRepo` from the repository's
probed files (existence flags and raw file bodies) to either a fatal error or
an `Outcome` (the counter increments this repository contributes).  The
external libraries `JSON.parse` and `yaml.parse` are passed in as parser
oracles returning exactly the fields the source reads; `none` models a parse
that throws.
-/

/-! ### String helpers mirroring the JavaScript string operations used
(implemented by structural recursion over `List Char` so that every
definition reduces inside the kernel) -/

/-- `pat` is a prefix of `s` (over character lists). -/
def startsWithChars : List Char → List Char → Bool
  | [], _ => true
  | _ :: _, [] => false
  | a :: as, b :: bs => a == b && startsWithChars as bs

/-- `pat` occurs as a contiguous run inside `s` (over character lists). -/
def hasSubstrChars (pat : List Char) : List Char → Bool
  | [] => pat.isEmpty
  | b :: bs => startsWithChars pat (b :: bs) || hasSubstrChars pat bs

/-- ASCII lower-casing of a character list. -/
def lowerChars (l : List Char) : List Char :=
  l.map Char.toLower

/-- `true` iff `pat` occurs as a substring of `s`. -/
def containsSubstr (s pat : String) : Bool :=
  hasSubstrChars pat.data s.data

/-- JS `s.match(/pat/i)` truthiness for a literal pattern `pat`
(given in lower case): case-insensitive substring containment. -/
def matchI (s pat : String) : Bool :=
  hasSubstrChars pat.data (lowerChars s.data)

/-- JS `s.split('\n')` (over character lists). -/
def splitLines : List Char → List (List Char)
  | [] => [[]]
  | c :: rest =>
    if c = '\n' then [] :: splitLines rest
    else
      match splitLines rest with
      | h :: t => (c :: h) :: t
      | [] => [[c]]

/-- JS `lines.join('\n')` (over character lists). -/
def joinLines : List (List Char) → List Char
  | [] => []
  | [l] => l
  | l :: rest => l ++ '\n' :: joinLines rest

/-- JS `s.split('\n').slice(0, n).join('\n')`. -/
def firstLines (n : Nat) (s : String) : String :=
  String.mk (joinLines ((splitLines s.data).take n))

/-- JS `s.split('\n')[0] || ''`. -/
def firstLine (s : String) : String :=
  String.mk ((splitLines s.data).headD [])

/-- Index of the last occurrence of `c`, as in JS `lastIndexOf` (`none` = -1). -/
def lastIndexOf (c : Char) : List Char → Option Nat
  | [] => none
  | x :: xs =>
    match lastIndexOf c xs with
    | some i => some (i + 1)
    | none => if x = c then some 0 else none

/-- JS `s.slice(0, s.lastIndexOf(','))`: note that `lastIndexOf` returning -1
makes `slice(0, -1)` drop the final character. -/
def sliceToLastComma (s : String) : String :=
  match lastIndexOf ',' s.toList with
  | some i => String.mk (s.toList.take i)
  | none => String.mk s.toList.dropLast

/-- Value of a (nonempty) digit run, as JS `Number` on the captured digits. -/
def digitsToNat (l : List Char) : Nat :=
  l.foldl (fun n c => n * 10 + (c.toNat - 48)) 0

/-- Scanner for the first match of `/@v?(\d+)/` over a character list:
at each `'@'`, accept a maximal digit run, optionally after a literal `'v'`;
otherwise keep scanning. -/
def extractAtVersionAux : List Char → Option Nat
  | [] => none
  | c :: rest =>
    if c = '@' then
      match rest with
      | d :: _ =>
        if d.isDigit then some (digitsToNat (rest.takeWhile Char.isDigit))
        else if d = 'v' then
          match rest with
          | _ :: e :: _ =>
            if e.isDigit then some (digitsToNat ((rest.drop 1).takeWhile Char.isDigit))
            else extractAtVersionAux rest
          | _ => extractAtVersionAux rest
        else extractAtVersionAux rest
      | [] => none
    else extractAtVersionAux rest

/-- JS `s.match(/@v?(\d+)/)?.[1]` followed by `Number(...)`: the major version
extracted from a Corepack `packageManager` value. -/
def extractAtVersion (s : String) : Option Nat :=
  extractAtVersionAux s.toList

/-! ### Data model -/

/-- The six package-manager identities counted by `packageManagerStats`. -/
inductive Manager where
  | npm
  | yarn_classic
  | yarn_modern
  | pnpm
  | bun
  | unknown
  deriving DecidableEq, Repr

/-- Increments contributed to the `stats` object by one repository. -/
structure StatsDelta where
  nodejs : Nat
  non_nodejs : Nat
  uses_corepack : Nat
  does_not_use_corepack : Nat
  has_lockfile : Nat
  does_not_have_lockfile : Nat
  deriving DecidableEq, Repr

def StatsDelta.zero : StatsDelta :=
  ⟨0, 0, 0, 0, 0, 0⟩

def StatsDelta.add (a b : StatsDelta) : StatsDelta :=
  ⟨a.nodejs + b.nodejs, a.non_nodejs + b.non_nodejs,
   a.uses_corepack + b.uses_corepack,
   a.does_not_use_corepack + b.does_not_use_corepack,
   a.has_lockfile + b.has_lockfile,
   a.does_not_have_lockfile + b.does_not_have_lockfile⟩

/-- Increments contributed to `packageManagerStats` by one repository. -/
structure ManagerDelta where
  npm : Nat
  yarn_classic : Nat
  yarn_modern : Nat
  pnpm : Nat
  bun : Nat
  unknown : Nat
  deriving DecidableEq, Repr

def ManagerDelta.zero : ManagerDelta :=
  ⟨0, 0, 0, 0, 0, 0⟩

/-- The single `packageManagerStats.X++` a classified repository performs. -/
def ManagerDelta.one : Manager → ManagerDelta
  | .npm => { ManagerDelta.zero with npm := 1 }
  | .yarn_classic => { ManagerDelta.zero with yarn_classic := 1 }
  | .yarn_modern => { ManagerDelta.zero with yarn_modern := 1 }
  | .pnpm => { ManagerDelta.zero with pnpm := 1 }
  | .bun => { ManagerDelta.zero with bun := 1 }
  | .unknown => { ManagerDelta.zero with unknown := 1 }

/-- Everything one iteration of the classification loop contributes to the
shared counters: overall stats increments, manager increments, and the at most
one `packageManagerVersionStats[m][label]++` bucket increment. -/
structure Outcome where
  stats : StatsDelta
  managers : ManagerDelta
  versionBump : Option (Manager × String)
  deriving DecidableEq, Repr

def addStats (o : Outcome) (s : StatsDelta) : Outcome :=
  { o with stats := o.stats.add s }

/-- The file tree of one repository as seen through the probe: existence
answers and raw fetched bodies for each path the classifier may ask about. -/
structure RepoFiles where
  packageJsonExists : Bool
  rawPackageJson : String
  packageLockExists : Bool
  rawPackageLock : String
  shrinkwrapExists : Bool
  yarnLockExists : Bool
  rawYarnLock : String
  pnpmLockExists : Bool
  rawPnpmLock : String
  bunLockbExists : Bool
  bunLockExists : Bool
  contributingExists : Bool
  rawContributing : String
  ciYmlExists : Bool
  rawCiYml : String
  deriving DecidableEq, Repr

def emptyRepo : RepoFiles :=
  ⟨false, "", false, "", false, false, "", false, "", false, false, false, "", false, ""⟩

/-- The fields of a parsed `package.json` that the classifier reads. -/
structure PackageJsonView where
  packageManager : Option String
  deriving DecidableEq, Repr

/-- The fields of a parsed `package-lock.json` that the classifier reads. -/
structure PackageLockView where
  lockfileVersion : Option Nat
  deriving DecidableEq, Repr

/-- The `__metadata` block of a parsed yarn.lock YAML front matter. -/
structure YamlMeta where
  version : Option Nat
  deriving DecidableEq, Repr

/-- The fields of a `yaml.parse` result that the classifier reads.
`metadata = none` models a document on which accessing `.__metadata.version`
throws a TypeError (null document or missing `__metadata` key). -/
structure YamlView where
  metadata : Option YamlMeta
  lockfileVersion : Option String
  deriving DecidableEq, Repr

/-- The external parsers (`JSON.parse`, `yaml.parse`) as oracles; `none`
models a parser that throws on the given text. -/
structure Parsers where
  parsePackageJson : String → Option PackageJsonView
  parsePackageLock : String → Option PackageLockView
  parseYaml : String → Option YamlView

def noParsers : Parsers :=
  ⟨fun _ => none, fun _ => none, fun _ => none⟩

/-- Fatal errors thrown by one iteration of the classification loop. -/
inductive ClassErr where
  | corepackVersionNotRecognized (pm : String)
  | corepackNotRecognized (pm : String)
  | invalidPackageLock (partialText : String)
  | yamlFailure
  | yarnMetadataAccess
  deriving DecidableEq, Repr

instance : DecidableEq (Except ClassErr Outcome) := fun a b =>
  match a, b with
  | .error e, .error f =>
    if h : e = f then isTrue (congrArg Except.error h)
    else isFalse (fun hc => h (Except.error.inj hc))
  | .error _, .ok _ => isFalse (fun hc => Except.noConfusion hc)
  | .ok _, .error _ => isFalse (fun hc => Except.noConfusion hc)
  | .ok x, .ok y =>
    if h : x = y then isTrue (congrArg Except.ok h)
    else isFalse (fun hc => h (Except.ok.inj hc))

/-! ### The classification engine, block by block -/

/-- `/yarn@[2-9]/i` on the `packageManager` value. -/
def corepackYarnModernMatch (pm : String) : Bool :=
  [ "yarn@2", "yarn@3", "yarn@4", "yarn@5", "yarn@6", "yarn@7", "yarn@8",
    "yarn@9" ].any (fun p => matchI pm p)

def corepackOutcome (m : Manager) (versionKey : String) : Outcome :=
  { stats := { StatsDelta.zero with uses_corepack := 1 },
    managers := ManagerDelta.one m,
    versionBump := some (m, versionKey) }

/-- The Corepack branch: version extraction (throwing when no `@v?digits`
token exists), then the ordered `/npm/i`, `/yarn@1/i`, `/yarn@[2-9]/i`,
`/pnpm/i`, `/bun/i` checks, throwing when none matches. -/
def corepackBranch (pm : String) : Except ClassErr Outcome :=
  match extractAtVersion pm with
  | none => .error (.corepackVersionNotRecognized pm)
  | some v =>
    if matchI pm "npm" then .ok (corepackOutcome .npm (toString v))
    else if matchI pm "yarn@1" then .ok (corepackOutcome .yarn_classic (toString v))
    else if corepackYarnModernMatch pm then .ok (corepackOutcome .yarn_modern (toString v))
    else if matchI pm "pnpm" then .ok (corepackOutcome .pnpm (toString v))
    else if matchI pm "bun" then .ok (corepackOutcome .bun (toString v))
    else .error (.corepackNotRecognized pm)

/-- `lockfileVersionToNpmVersionMap` from the source. -/
def lockfileVersionToNpmVersionMap (v : Nat) : Option String :=
  if v = 1 then some "5_or_6"
  else if v = 2 then some "7_or_8"
  else if v = 3 then some "9_or_10_or_11"
  else none

/-- npm version label recorded for a parsed `package-lock.json`: the JS falsy
check on `lockfileVersion`, then the map lookup with `?? 'unknown'`. -/
def npmLockLabel (lv : PackageLockView) : String :=
  match lv.lockfileVersion with
  | none => "unknown"
  | some v => if v = 0 then "unknown" else (lockfileVersionToNpmVersionMap v).getD "unknown"

def lockVersionOutcome (lv : PackageLockView) : Outcome :=
  { stats := { StatsDelta.zero with has_lockfile := 1 },
    managers := ManagerDelta.one .npm,
    versionBump := some (.npm, npmLockLabel lv) }

/-- The recovery text built when `package-lock.json` fails to parse: first 5
lines, sliced to just before the last comma, with a closing brace appended. -/
def recoverLockText (raw : String) : String :=
  sliceToLastComma (firstLines 5 raw) ++ "\n\x7d"

/-- The `package-lock.json` branch: parse, on failure attempt the single
bounded recovery, on a second failure throw naming the recovery text. -/
def packageLockBranch (P : Parsers) (raw : String) : Except ClassErr Outcome :=
  match P.parsePackageLock raw with
  | some lv => .ok (lockVersionOutcome lv)
  | none =>
    match P.parsePackageLock (recoverLockText raw) with
    | some lv => .ok (lockVersionOutcome lv)
    | none => .error (.invalidPackageLock (recoverLockText raw))

def shrinkwrapOutcome : Outcome :=
  { stats := { StatsDelta.zero with has_lockfile := 1 },
    managers := ManagerDelta.one .npm,
    versionBump := some (.npm, "unknown") }

/-- `lockfileVersionToYarnVersionMap` from the source. -/
def lockfileVersionToYarnVersionMap (v : Nat) : Option String :=
  if v = 4 then some "3"
  else if v = 5 then some "3"
  else if v = 6 then some "3"
  else if v = 8 then some "4"
  else none

/-- Yarn Modern version label: JS falsy check on `__metadata.version`, then
map lookup with `?? 'unknown'`. -/
def yarnModernLabel (mv : Option Nat) : String :=
  match mv with
  | none => "unknown"
  | some v => if v = 0 then "unknown" else (lockfileVersionToYarnVersionMap v).getD "unknown"

def yarnClassicOutcome : Outcome :=
  { stats := { StatsDelta.zero with has_lockfile := 1 },
    managers := ManagerDelta.one .yarn_classic,
    versionBump := some (.yarn_classic, "1") }

def yarnModernOutcome (label : String) : Outcome :=
  { stats := { StatsDelta.zero with has_lockfile := 1 },
    managers := ManagerDelta.one .yarn_modern,
    versionBump := some (.yarn_modern, label) }

/-- The `yarn.lock` branch: the case-insensitive `# yarn lockfile v1` header
check, else YAML-parse the first 10 lines and read `.__metadata.version`
(which throws when `__metadata` is absent). -/
def yarnBranch (P : Parsers) (raw : String) : Except ClassErr Outcome :=
  if matchI raw "# yarn lockfile v1" then .ok yarnClassicOutcome
  else
    match P.parseYaml (firstLines 10 raw) with
    | none => .error .yamlFailure
    | some doc =>
      match doc.metadata with
      | none => .error .yarnMetadataAccess
      | some meta => .ok (yarnModernOutcome (yarnModernLabel meta.version))

/-- `lockfileVersionToPnpmVersionMap` from the source (keys as the JS string
coercions of the YAML scalar). -/
def lockfileVersionToPnpmVersionMap (v : String) : Option String :=
  if v = "5" then some "3"
  else if v = "5.1" then some "3_or_4_or_5"
  else if v = "5.2" then some "5"
  else if v = "5.3" then some "6"
  else if v = "5.4" then some "7"
  else if v = "6.0" then some "8"
  else if v = "6.1" then some "9"
  else if v = "7.0" then some "9"
  else if v = "9.0" then some "9_or_10"
  else none

def pnpmLabel (v : Option String) : String :=
  match v with
  | none => "unknown"
  | some s => if s = "" then "unknown" else (lockfileVersionToPnpmVersionMap s).getD "unknown"

def pnpmOutcome (label : String) : Outcome :=
  { stats := { StatsDelta.zero with has_lockfile := 1 },
    managers := ManagerDelta.one .pnpm,
    versionBump := some (.pnpm, label) }

/-- The `pnpm-lock.yaml` branch: YAML-parse the first line and read
`lockfileVersion`. -/
def pnpmBranch (P : Parsers) (raw : String) : Except ClassErr Outcome :=
  match P.parseYaml (firstLine raw) with
  | none => .error .yamlFailure
  | some doc => .ok (pnpmOutcome (pnpmLabel doc.lockfileVersion))

def bunOutcome : Outcome :=
  { stats := { StatsDelta.zero with has_lockfile := 1 },
    managers := ManagerDelta.one .bun,
    versionBump := some (.bun, "1") }

/-- The script grep over the raw `package.json` text (guarded by JS
truthiness of the string): `/npm run/i`, `/yarn run/i`, `/pnpm run/i`,
`/bun run/i`, `/npx/i`, in order. -/
def scriptGrepManager (raw : String) : Option Manager :=
  if raw = "" then none
  else if matchI raw "npm run" then some .npm
  else if matchI raw "yarn run" then some .unknown
  else if matchI raw "pnpm run" then some .pnpm
  else if matchI raw "bun run" then some .bun
  else if matchI raw "npx" then some .npm
  else none

/-- `regexes.npm`: `/npm (ci|install|run|test)/i`. -/
def regexNpmMatch (s : String) : Bool :=
  matchI s "npm ci" || matchI s "npm install" || matchI s "npm run" || matchI s "npm test"

/-- `regexes.yarn`: `/yarn/i`. -/
def regexYarnMatch (s : String) : Bool :=
  matchI s "yarn"

/-- `regexes.pnpm`: `/pnpm (install|run|test)/i`. -/
def regexPnpmMatch (s : String) : Bool :=
  matchI s "pnpm install" || matchI s "pnpm run" || matchI s "pnpm test"

/-- `regexes.bun`: `/bun (install|run|test)/i`. -/
def regexBunMatch (s : String) : Bool :=
  matchI s "bun install" || matchI s "bun run" || matchI s "bun test"

/-- The shared `regexes` cascade used for `CONTRIBUTING.md` and
`.github/workflows/ci.yml`. -/
def docGrepManager (s : String) : Option Manager :=
  if regexNpmMatch s then some .npm
  else if regexYarnMatch s then some .unknown
  else if regexPnpmMatch s then some .pnpm
  else if regexBunMatch s then some .bun
  else none

def fallbackOutcome (m : Manager) : Outcome :=
  { stats := { StatsDelta.zero with does_not_have_lockfile := 1 },
    managers := ManagerDelta.one m,
    versionBump := none }

/-- The no-lockfile tail of the cascade: script grep on the raw
`package.json`, then `CONTRIBUTING.md`, then `.github/workflows/ci.yml`,
then `unknown`. -/
def fallbackGrep (r : RepoFiles) : Outcome :=
  match scriptGrepManager r.rawPackageJson with
  | some m => fallbackOutcome m
  | none =>
    match (if r.contributingExists then docGrepManager r.rawContributing else none) with
    | some m => fallbackOutcome m
    | none =>
      match (if r.ciYmlExists then docGrepManager r.rawCiYml else none) with
      | some m => fallbackOutcome m
      | none => fallbackOutcome .unknown

/-- The marker-file cascade in source order: `package-lock.json`,
`npm-shrinkwrap.json`, `yarn.lock`, `pnpm-lock.yaml`,
`bun.lockb` or `bun.lock`, then the grep tail. -/
def markerCascade (P : Parsers) (r : RepoFiles) : Except ClassErr Outcome :=
  if r.packageLockExists then packageLockBranch P r.rawPackageLock
  else if r.shrinkwrapExists then .ok shrinkwrapOutcome
  else if r.yarnLockExists then yarnBranch P r.rawYarnLock
  else if r.pnpmLockExists then pnpmBranch P r.rawPnpmLock
  else if r.bunLockbExists || r.bunLockExists then .ok bunOutcome
  else .ok (fallbackGrep r)

def dnucStats : StatsDelta :=
  { StatsDelta.zero with does_not_use_corepack := 1 }

def ucStats : StatsDelta :=
  { StatsDelta.zero with uses_corepack := 1 }

def nodejsStats : StatsDelta :=
  { StatsDelta.zero with nodejs := 1 }

/-- Everything after `stats.nodejs++`: parse `package.json`; in the parsed
case run the Corepack branch when `packageManager` is truthy, else count
`does_not_use_corepack` and fall into the marker cascade; when the parse
throws, fall straight into the marker cascade. -/
def classifyParsed (P : Parsers) (r : RepoFiles) : Except ClassErr Outcome :=
  match P.parsePackageJson r.rawPackageJson with
  | some pj =>
    match pj.packageManager with
    | some pm =>
      if pm = "" then (markerCascade P r).map (fun o => addStats o dnucStats)
      else corepackBranch pm
    | none => (markerCascade P r).map (fun o => addStats o dnucStats)
  | none => markerCascade P r

def nonNodeOutcome : Outcome :=
  { stats := { StatsDelta.zero with non_nodejs := 1 },
    managers := ManagerDelta.zero,
    versionBump := none }

/-- One iteration of the classification loop for a single repository. -/
def classifyRepo (P : Parsers) (r : RepoFiles) : Except ClassErr Outcome :=
  if r.packageJsonExists then (classifyParsed P r).map (fun o => addStats o nodejsStats)
  else .ok nonNodeOutcome

/-! ### Claim-side definitions (written from the spec's words, for the
refinement-style theorems) -/

/-- The npm version label the (amended) claim assigns to a
`lockfileVersion` value. -/
def npmLabelOfLockfileVersion : Option Nat → String
  | some 1 => "5_or_6"
  | some 2 => "7_or_8"
  | some 3 => "9_or_10_or_11"
  | _ => "unknown"

/-- The Yarn Modern version label the (amended) claim assigns to a
`__metadata.version` value. -/
def yarnLabelOfMetadataVersion : Option Nat → String
  | some 4 => "3"
  | some 5 => "3"
  | some 6 => "3"
  | some 8 => "4"
  | _ => "unknown"

/-- The (amended) step-4 script-grep rule over the raw `package.json` text:
case-insensitive substring patterns `npm run`, `yarn run` (manager
indeterminable), `pnpm run`, `bun run`, then bare `npx`, first match wins. -/
def scriptGrepRule (raw : String) : Option Manager :=
  if matchI raw "npm run" then some .npm
  else if matchI raw "yarn run" then some .unknown
  else if matchI raw "pnpm run" then some .pnpm
  else if matchI raw "bun run" then some .bun
  else if matchI raw "npx" then some .npm
  else none

/-- The (amended) steps-5/6 grep rule for `CONTRIBUTING.md` and
`.github/workflows/ci.yml`: npm `npm (ci|install|run|test)`, Yarn bare
`yarn` mention (manager indeterminable), pnpm `pnpm (install|run|test)`,
Bun `bun (install|run|test)`, first match wins, all case-insensitive. -/
def docGrepRule (s : String) : Option Manager :=
  if matchI s "npm ci" || matchI s "npm install" || matchI s "npm run" || matchI s "npm test" then
    some .npm
  else if matchI s "yarn" then some .unknown
  else if matchI s "pnpm install" || matchI s "pnpm run" || matchI s "pnpm test" then some .pnpm
  else if matchI s "bun install" || matchI s "bun run" || matchI s "bun test" then some .bun
  else none

/-! ### The Version Normalizer, modelled from the spec -/

/-- A version label is ambiguous when it contains the literal separator. -/
def isAmbiguousLabel (l : String) : Bool :=
  containsSubstr l " or "

/-- `label.split(" or ")` (over character lists, structural). -/
def splitOnOrChars : List Char → List (List Char)
  | [] => [[]]
  | ' ' :: 'o' :: 'r' :: ' ' :: rest => [] :: splitOnOrChars rest
  | c :: rest =>
    match splitOnOrChars rest with
    | h :: t => (c :: h) :: t
    | [] => [[c]]

/-- The individual tokens of an ambiguous label. -/
def labelTokens (l : String) : List String :=
  (splitOnOrChars l.data).map String.mk

/-- Modelled from the spec: the Version Normalizer's token-to-canonical-group
map (the chart-rendering code that implements the normalizer is not under
`src/`).  Scan all ambiguous labels, in order; each token inside an ambiguous
label maps to that label's full string, first-seen-wins on collisions. -/
def buildTokenMap (raw : List (String × Nat)) : List (String × String) :=
  raw.foldl
    (fun acc p =>
      if isAmbiguousLabel p.1 then
        (labelTokens p.1).foldl
          (fun acc2 tok => if (List.lookup tok acc2).isSome then acc2 else acc2 ++ [(tok, p.1)])
          acc
      else acc)
    []

/-- Modelled from the spec: resolve a label's canonical group — itself if
already ambiguous or unmapped, else the mapped ambiguous label. -/
def resolveGroup (tm : List (String × String)) (l : String) : String :=
  if isAmbiguousLabel l then l else (List.lookup l tm).getD l

/-- Add a count into an association-list histogram, preserving first-insertion
order of keys. -/
def addCount : List (String × Nat) → String → Nat → List (String × Nat)
  | [], k, c => [(k, c)]
  | (k0, c0) :: rest, k, c =>
    if k0 = k then (k0, c0 + c) :: rest else (k0, c0) :: addCount rest k c

/-- Two distinct raw labels resolved into the same group. -/
def pairCollision : List (String × String) → Bool
  | [] => false
  | p :: rest => rest.any (fun q => q.1 != p.1 && q.2 == p.2) || pairCollision rest

/-- Modelled from the spec: the Version Normalizer's `merge` operation (code
not under `src/`).  Build the token map from the ambiguous labels, accumulate
every non-`"unknown"` positive-count label into its resolved group's bucket,
and report `hadMerges` iff some label's resolved group differs from its own
text or two distinct raw labels resolved into the same group. -/
def mergeVersionHistogram (raw : List (String × Nat)) : List (String × Nat) × Bool :=
  let tm := buildTokenMap raw
  let processed := raw.filter (fun p => p.2 != 0 && p.1 != "unknown")
  let merged := processed.foldl (fun acc p => addCount acc (resolveGroup tm p.1) p.2) []
  let renamed := processed.any (fun p => resolveGroup tm p.1 != p.1)
  let collided := pairCollision (processed.map (fun p => (p.1, resolveGroup tm p.1)))
  (merged, renamed || collided)

/-- The disjunction of the five Corepack tool patterns
(`/npm/i`, `/yarn@1/i`, `/yarn@[2-9]/i`, `/pnpm/i`, `/bun/i`). -/
def corepackPatternMatches (pm : String) : Bool :=
  matchI pm "npm" || matchI pm "yarn@1" || corepackYarnModernMatch pm ||
    matchI pm "pnpm" || matchI pm "bun"

/-- A classification run ended in a thrown error. -/
def isFatal : Except ClassErr Outcome → Bool
  | .error _ => true
  | .ok _ => false

/-! ### Concrete repositories and parser oracles used as test inputs -/

def pnpmCorepackPkg : String :=
  "\x7b\"packageManager\": \"pnpm@8.6.0\"\x7d"

/-- A repository declaring `packageManager: "pnpm@8.6.0"` that also contains a
`yarn.lock` (the scenario of the spec's testable property). -/
def pnpmCorepackRepo : RepoFiles :=
  { emptyRepo with
    packageJsonExists := true
    rawPackageJson := pnpmCorepackPkg
    yarnLockExists := true
    rawYarnLock := "# yarn lockfile v1" }

def pnpmCorepackParsers : Parsers :=
  { noParsers with
    parsePackageJson := fun s =>
      if s = pnpmCorepackPkg then some ⟨some "pnpm@8.6.0"⟩ else none }

def emptyObjPkg : String :=
  "\x7b\x7d"

/-- `JSON.parse` on `"\x7b\x7d"` alone: a `package.json` with no
`packageManager` field. -/
def plainPkgParser : String → Option PackageJsonView :=
  fun s => if s = emptyObjPkg then some ⟨none⟩ else none

/-- Repository with an empty-object `package.json` and a `package-lock.json`
carrying `lockfileVersion: 2`. -/
def lockV2Repo : RepoFiles :=
  { emptyRepo with
    packageJsonExists := true
    rawPackageJson := emptyObjPkg
    packageLockExists := true
    rawPackageLock := "\x7b\n  \"lockfileVersion\": 2\n\x7d" }

def lockV2Parsers : Parsers :=
  { noParsers with
    parsePackageJson := plainPkgParser
    parsePackageLock := fun s =>
      if s = "\x7b\n  \"lockfileVersion\": 2\n\x7d" then some ⟨some 2⟩ else none }

/-- Repository whose `yarn.lock` has no v1 header and whose YAML front matter
has no `__metadata` block. -/
def bareYarnRepo : RepoFiles :=
  { emptyRepo with
    packageJsonExists := true
    rawPackageJson := emptyObjPkg
    yarnLockExists := true
    rawYarnLock := "foo: bar" }

def bareYarnParsers : Parsers :=
  { noParsers with
    parsePackageJson := plainPkgParser
    parseYaml := fun s => if s = "foo: bar" then some ⟨none, none⟩ else none }

def berryYarnLockText : String :=
  "__metadata:\n  version: 8\n  cacheKey: 8"

/-- Repository whose `yarn.lock` has no v1 header and carries
`__metadata: \x7bversion: 8\x7d`. -/
def berryYarnRepo : RepoFiles :=
  { emptyRepo with
    packageJsonExists := true
    rawPackageJson := emptyObjPkg
    yarnLockExists := true
    rawYarnLock := berryYarnLockText }

def berryYarnParsers : Parsers :=
  { noParsers with
    parsePackageJson := plainPkgParser
    parseYaml := fun s =>
      if s = berryYarnLockText then some ⟨some ⟨some 8⟩, none⟩ else none }

def npmCiPkg : String :=
  "\x7b\"scripts\": \x7b\"a\": \"npm ci\"\x7d\x7d"

/-- Lockfile-less repository whose `package.json` scripts mention `npm ci`. -/
def npmCiRepo : RepoFiles :=
  { emptyRepo with
    packageJsonExists := true
    rawPackageJson := npmCiPkg }

def npmCiParsers : Parsers :=
  { noParsers with
    parsePackageJson := fun s => if s = npmCiPkg then some ⟨none⟩ else none }

def yarnRunPkg : String :=
  "\x7b\"scripts\": \x7b\"a\": \"yarn run build\"\x7d\x7d"

/-- Lockfile-less repository whose `package.json` scripts mention
`yarn run`. -/
def yarnRunRepo : RepoFiles :=
  { emptyRepo with
    packageJsonExists := true
    rawPackageJson := yarnRunPkg }

def yarnRunParsers : Parsers :=
  { noParsers with
    parsePackageJson := fun s => if s = yarnRunPkg then some ⟨none⟩ else none }

/-- Lockfile-less repository whose `CONTRIBUTING.md` says `bun i`. -/
def bunIRepo : RepoFiles :=
  { emptyRepo with
    packageJsonExists := true
    rawPackageJson := emptyObjPkg
    contributingExists := true
    rawContributing := "To develop locally use bun i" }

/-- Lockfile-less repository whose `CONTRIBUTING.md` says `bun run dev`. -/
def bunRunRepo : RepoFiles :=
  { emptyRepo with
    packageJsonExists := true
    rawPackageJson := emptyObjPkg
    contributingExists := true
    rawContributing := "To develop locally use bun run dev" }

def plainPkgParsers : Parsers :=
  { noParsers with parsePackageJson := plainPkgParser }

def truncatedLockText : String :=
  "\x7b\n  \"name\": \"x\",\n  \"lockfileVersion\": 2,\n  \"requires\": true,\n  \"packages\": \x7b"

def recoveredLockText : String :=
  "\x7b\n  \"name\": \"x\",\n  \"lockfileVersion\": 2,\n  \"requires\": true\n\x7d"

/-- Repository whose `package-lock.json` is truncated mid-object. -/
def truncatedLockRepo : RepoFiles :=
  { emptyRepo with
    packageJsonExists := true
    rawPackageJson := emptyObjPkg
    packageLockExists := true
    rawPackageLock := truncatedLockText }

/-- Parser oracle that rejects the truncated lockfile but accepts the
recovered text (which is valid JSON with `lockfileVersion: 2`). -/
def truncatedLockParsers : Parsers :=
  { noParsers with
    parsePackageJson := plainPkgParser
    parsePackageLock := fun s =>
      if s = recoveredLockText then some ⟨some 2⟩ else none }

def emptyCorepackPkg : String :=
  "\x7b\"packageManager\": \"\"\x7d"

/-- Repository whose `package.json` carries `packageManager: ""`. -/
def emptyCorepackRepo : RepoFiles :=
  { emptyRepo with
    packageJsonExists := true
    rawPackageJson := emptyCorepackPkg }

def emptyCorepackParsers : Parsers :=
  { noParsers with
    parsePackageJson := fun s =>
      if s = emptyCorepackPkg then some ⟨some ""⟩ else none }

def fooCorepackPkg : String :=
  "\x7b\"packageManager\": \"foo@2\"\x7d"

/-- Repository whose `package.json` carries the unrecognized declaration
`packageManager: "foo@2"`. -/
def fooCorepackRepo : RepoFiles :=
  { emptyRepo with
    packageJsonExists := true
    rawPackageJson := fooCorepackPkg }

def fooCorepackParsers : Parsers :=
  { noParsers with
    parsePackageJson := fun s =>
      if s = fooCorepackPkg then some ⟨some "foo@2"⟩ else none }

def invalidPkgText : String :=
  "\x7b oops"

/-- Repository whose `package.json` exists but is not valid JSON. -/
def invalidPkgRepo : RepoFiles :=
  { emptyRepo with
    packageJsonExists := true
    rawPackageJson := invalidPkgText }

/-! ### Helper lemmas -/

/-- The npm version label computed by the code agrees with the claim-side
map for every `lockfileVersion` value. -/
theorem npmLockLabel_eq (v : Option Nat) :
    npmLockLabel ⟨v⟩ = npmLabelOfLockfileVersion v := by
  rcases v with _ | n
  · rfl
  · rcases n with _ | _ | _ | _ | n <;> rfl

/-- The Yarn Modern version label computed by the code agrees with the
claim-side map for every `__metadata.version` value. -/
theorem yarnModernLabel_eq (mv : Option Nat) :
    yarnModernLabel mv = yarnLabelOfMetadataVersion mv := by
  rcases mv with _ | n
  · rfl
  · rcases n with _ | _ | _ | _ | _ | _ | _ | _ | _ | n <;> rfl

/-- The code's script grep (with its JS truthiness guard on the raw text)
agrees with the claim-side rule on every input: the guard only short-circuits
the empty string, on which no pattern matches anyway. -/
theorem scriptGrep_eq (raw : String) :
    scriptGrepManager raw = scriptGrepRule raw := by
  by_cases h : raw = ""
  · subst h; rfl
  · simp only [scriptGrepManager, scriptGrepRule, if_neg h]

/-- The code's `regexes` cascade coincides with the claim-side rule. -/
theorem docGrep_eq (s : String) : docGrepManager s = docGrepRule s := rfl

/-- A repository with a parsed `package.json`, no `packageManager` field, and
no marker file reaches the grep tail of the cascade. -/
theorem classify_reaches_fallbackGrep
    (P : Parsers) (r : RepoFiles)
    (h1 : r.packageJsonExists = true)
    (h2 : P.parsePackageJson r.rawPackageJson = some ⟨none⟩)
    (h3 : r.packageLockExists = false) (h4 : r.shrinkwrapExists = false)
    (h5 : r.yarnLockExists = false) (h6 : r.pnpmLockExists = false)
    (h7 : r.bunLockbExists = false) (h8 : r.bunLockExists = false) :
    classifyRepo P r =
      Except.ok (addStats (addStats (fallbackGrep r) dnucStats) nodejsStats) := by
  simp [classifyRepo, classifyParsed, markerCascade, h1, h2, h3, h4, h5, h6, h7, h8, Except.map]

/-- No branch of the marker cascade touches the `uses_corepack`,
`does_not_use_corepack` or `nodejs` counters. -/
theorem markerCascade_corepack_counters (P : Parsers) (r : RepoFiles) (o : Outcome)
    (h : markerCascade P r = Except.ok o) :
    o.stats.uses_corepack = 0 ∧ o.stats.does_not_use_corepack = 0 ∧ o.stats.nodejs = 0 := by
  unfold markerCascade packageLockBranch yarnBranch pnpmBranch fallbackGrep at h
  repeat' split at h
  all_goals first
    | exact Except.noConfusion h
    | (injection h with h2; subst h2; exact ⟨rfl, rfl, rfl⟩)

/-! ### C1 -/

/-- C1: refuted by the code — for a repository whose `package.json` declares
`packageManager: "pnpm@8.6.0"` (here together with a `yarn.lock`), the
Corepack branch counts **npm**, not pnpm: the `/npm/i` pattern is checked
first and matches the substring `npm` inside `pnpm`, so the pnpm check is
unreachable.  The extracted major version `8` is recorded in the npm
histogram.  This contradicts the branch's own doc comment ("count as
whatever is specified"). -/
theorem corepack_pnpm_declaration_counted_as_npm :
    classifyRepo pnpmCorepackParsers pnpmCorepackRepo =
      Except.ok
        { stats := { nodejs := 1, non_nodejs := 0, uses_corepack := 1,
                     does_not_use_corepack := 0, has_lockfile := 0,
                     does_not_have_lockfile := 0 },
          managers := { npm := 1, yarn_classic := 0, yarn_modern := 0,
                        pnpm := 0, bun := 0, unknown := 0 },
          versionBump := some (Manager.npm, "8") } := by
  decide

/-! ### C2 -/

/-- C2: the Version Normalizer's merge (modelled from the spec; the chart
code is not under `src/`).  A histogram holding both `"3"` and
`"3 or 4 or 5"` merges them into one `"3 or 4 or 5"` bucket with summed
count and `hadMerges = true`; already-ambiguous labels with no collision
merge to themselves with `hadMerges = false` (zero-count entries dropped);
token collisions between ambiguous labels are resolved first-seen-wins; a
label in no ambiguous group is emitted unchanged. -/
theorem mergeVersionHistogram_merges_overlapping_labels :
    mergeVersionHistogram [("3", 2), ("3 or 4 or 5", 3), ("7", 1)] =
        ([("3 or 4 or 5", 5), ("7", 1)], true) ∧
      mergeVersionHistogram [("5 or 6", 2), ("7 or 8", 1), ("9 or 10 or 11", 0)] =
        ([("5 or 6", 2), ("7 or 8", 1)], false) ∧
      mergeVersionHistogram [("3 or 4", 1), ("3 or 5", 1), ("3", 1)] =
        ([("3 or 4", 2), ("3 or 5", 1)], true) ∧
      mergeVersionHistogram [("7", 1)] = ([("7", 1)], false) := by
  decide

/-! ### C3 -/

/-- C3 counterexample: a repository with no `packageManager` field whose
`package-lock.json` has `lockfileVersion: 2` records the npm version label
`"7_or_8"` — the underscore separator, not the `" or "` separator the claim
asserts (`"7_or_8"` and `"7 or 8"` are different strings). -/
theorem package_lock_version_label_uses_underscores :
    classifyRepo lockV2Parsers lockV2Repo =
      Except.ok
        { stats := { nodejs := 1, non_nodejs := 0, uses_corepack := 0,
                     does_not_use_corepack := 1, has_lockfile := 1,
                     does_not_have_lockfile := 0 },
          managers := { npm := 1, yarn_classic := 0, yarn_modern := 0,
                        pnpm := 0, bun := 0, unknown := 0 },
          versionBump := some (Manager.npm, "7_or_8") } ∧
      ((("7_or_8" : String) == "7 or 8") = false) := by
  decide

/-- C3 (amended): with no `packageManager` field and `package-lock.json`
present (the first marker checked), classification yields npm and the
version label `1 ↦ "5_or_6"`, `2 ↦ "7_or_8"`, `3 ↦ "9_or_10_or_11"`,
`"unknown"` when `lockfileVersion` is absent or unmapped — the ambiguous
labels joined by `"_or_"`, not `" or "`. -/
theorem package_lock_branch_yields_npm_with_mapped_label
    (P : Parsers) (r : RepoFiles) (v : Option Nat)
    (h1 : r.packageJsonExists = true)
    (h2 : P.parsePackageJson r.rawPackageJson = some ⟨none⟩)
    (h3 : r.packageLockExists = true)
    (h4 : P.parsePackageLock r.rawPackageLock = some ⟨v⟩) :
    classifyRepo P r =
      Except.ok
        { stats := { nodejs := 1, non_nodejs := 0, uses_corepack := 0,
                     does_not_use_corepack := 1, has_lockfile := 1,
                     does_not_have_lockfile := 0 },
          managers := { npm := 1, yarn_classic := 0, yarn_modern := 0,
                        pnpm := 0, bun := 0, unknown := 0 },
          versionBump := some (Manager.npm, npmLabelOfLockfileVersion v) } := by
  simp [classifyRepo, classifyParsed, markerCascade, packageLockBranch, h1, h2, h3, h4,
    Except.map, lockVersionOutcome, addStats, StatsDelta.add, dnucStats, nodejsStats,
    StatsDelta.zero, ManagerDelta.one, ManagerDelta.zero, npmLockLabel_eq]

/-- C3 witness: the amended theorem applied at `lockfileVersion = 2`. -/
theorem package_lock_branch_yields_npm_with_mapped_label_witness :
    (lockV2Repo.packageJsonExists = true ∧
     lockV2Parsers.parsePackageJson lockV2Repo.rawPackageJson = some ⟨none⟩ ∧
     lockV2Repo.packageLockExists = true ∧
     lockV2Parsers.parsePackageLock lockV2Repo.rawPackageLock = some ⟨some 2⟩) ∧
      classifyRepo lockV2Parsers lockV2Repo =
        Except.ok
          { stats := { nodejs := 1, non_nodejs := 0, uses_corepack := 0,
                       does_not_use_corepack := 1, has_lockfile := 1,
                       does_not_have_lockfile := 0 },
            managers := { npm := 1, yarn_classic := 0, yarn_modern := 0,
                          pnpm := 0, bun := 0, unknown := 0 },
            versionBump := some (Manager.npm, npmLabelOfLockfileVersion (some 2)) } :=
  ⟨⟨rfl, by decide, rfl, by decide⟩,
   package_lock_branch_yields_npm_with_mapped_label lockV2Parsers lockV2Repo (some 2)
     rfl (by decide) rfl (by decide)⟩

/-! ### C4 -/

/-- C4 counterexample: a `yarn.lock` without the v1 header whose YAML front
matter has no `__metadata` block makes classification throw (the TypeError of
reading `.version` on `undefined`) — a fatal error for a missing field,
contrary to the claim's "never a fatal error for a missing field". -/
theorem yarn_modern_missing_metadata_is_fatal :
    classifyRepo bareYarnParsers bareYarnRepo =
      Except.error ClassErr.yarnMetadataAccess := by
  decide

/-- C4 (amended): once the `yarn.lock` branch is reached and the parsed front
matter carries a `__metadata` block, the header `# yarn lockfile v1`
(case-insensitive) yields Yarn Classic with version `"1"`; otherwise Yarn
Modern with `__metadata.version` mapped `4, 5, 6 ↦ "3"`, `8 ↦ "4"`, and
`"unknown"` when the version field is absent or unmapped.  (A front matter
without a `__metadata` block is instead a fatal error, per the
counterexample.) -/
theorem yarn_branch_header_and_metadata_classification
    (P : Parsers) (r : RepoFiles) (mv : Option Nat) (lv : Option String)
    (h1 : r.packageJsonExists = true)
    (h2 : P.parsePackageJson r.rawPackageJson = some ⟨none⟩)
    (h3 : r.packageLockExists = false)
    (h4 : r.shrinkwrapExists = false)
    (h5 : r.yarnLockExists = true)
    (h6 : P.parseYaml (firstLines 10 r.rawYarnLock) = some ⟨some ⟨mv⟩, lv⟩) :
    classifyRepo P r =
      Except.ok
        (if matchI r.rawYarnLock "# yarn lockfile v1" then
          { stats := { nodejs := 1, non_nodejs := 0, uses_corepack := 0,
                       does_not_use_corepack := 1, has_lockfile := 1,
                       does_not_have_lockfile := 0 },
            managers := { npm := 0, yarn_classic := 1, yarn_modern := 0,
                          pnpm := 0, bun := 0, unknown := 0 },
            versionBump := some (Manager.yarn_classic, "1") }
        else
          { stats := { nodejs := 1, non_nodejs := 0, uses_corepack := 0,
                       does_not_use_corepack := 1, has_lockfile := 1,
                       does_not_have_lockfile := 0 },
            managers := { npm := 0, yarn_classic := 0, yarn_modern := 1,
                          pnpm := 0, bun := 0, unknown := 0 },
            versionBump := some (Manager.yarn_modern, yarnLabelOfMetadataVersion mv) }) := by
  cases hh : matchI r.rawYarnLock "# yarn lockfile v1" with
  | true =>
    simp [classifyRepo, classifyParsed, markerCascade, yarnBranch, h1, h2, h3, h4, h5, hh,
      Except.map, yarnClassicOutcome, addStats, StatsDelta.add, dnucStats, nodejsStats,
      StatsDelta.zero, ManagerDelta.one, ManagerDelta.zero]
  | false =>
    simp [classifyRepo, classifyParsed, markerCascade, yarnBranch, h1, h2, h3, h4, h5, h6, hh,
      Except.map, yarnModernOutcome, addStats, StatsDelta.add, dnucStats, nodejsStats,
      StatsDelta.zero, ManagerDelta.one, ManagerDelta.zero, yarnModernLabel_eq]

/-- C4 witness: a header-less `yarn.lock` with `__metadata: \x7bversion: 8\x7d`
yields Yarn Modern with label `"4"`, via the amended theorem. -/
theorem yarn_branch_header_and_metadata_classification_witness :
    (berryYarnRepo.packageJsonExists = true ∧
     berryYarnParsers.parsePackageJson berryYarnRepo.rawPackageJson = some ⟨none⟩ ∧
     berryYarnRepo.packageLockExists = false ∧
     berryYarnRepo.shrinkwrapExists = false ∧
     berryYarnRepo.yarnLockExists = true ∧
     berryYarnParsers.parseYaml (firstLines 10 berryYarnRepo.rawYarnLock) =
       some ⟨some ⟨some 8⟩, none⟩) ∧
      classifyRepo berryYarnParsers berryYarnRepo =
        Except.ok
          { stats := { nodejs := 1, non_nodejs := 0, uses_corepack := 0,
                       does_not_use_corepack := 1, has_lockfile := 1,
                       does_not_have_lockfile := 0 },
            managers := { npm := 0, yarn_classic := 0, yarn_modern := 1,
                          pnpm := 0, bun := 0, unknown := 0 },
            versionBump := some (Manager.yarn_modern, yarnLabelOfMetadataVersion (some 8)) } := by
  refine ⟨⟨rfl, by decide, rfl, rfl, rfl, by decide⟩, ?_⟩
  have h := yarn_branch_header_and_metadata_classification berryYarnParsers berryYarnRepo
    (some 8) none rfl (by decide) rfl rfl rfl (by decide)
  rw [show matchI berryYarnRepo.rawYarnLock "# yarn lockfile v1" = false from by decide] at h
  simpa using h

/-! ### C5 -/

/-- C5 counterexample: a lockfile-less repository whose raw `package.json`
contains `npm ci` (but none of the patterns the code actually greps) is
classified `unknown`, not npm — the script grep uses `/npm run/i`,
`/yarn run/i`, `/pnpm run/i`, `/bun run/i` and `/npx/i`, not the
`npm (ci|install|run|test)` family the claim asserts. -/
theorem script_grep_npm_ci_not_matched :
    classifyRepo npmCiParsers npmCiRepo =
      Except.ok
        { stats := { nodejs := 1, non_nodejs := 0, uses_corepack := 0,
                     does_not_use_corepack := 1, has_lockfile := 0,
                     does_not_have_lockfile := 1 },
          managers := { npm := 0, yarn_classic := 0, yarn_modern := 0,
                        pnpm := 0, bun := 0, unknown := 1 },
          versionBump := none } ∧
      matchI npmCiRepo.rawPackageJson "npm ci" = true := by
  decide

/-- C5 (amended): in the no-marker-file fallback the raw `package.json` text
is grepped, in order, for `npm run` → npm, `yarn run` → manager `unknown`,
`pnpm run` → pnpm, `bun run` → bun, then bare `npx` → npm (all
case-insensitive substrings); no version label is recorded. -/
theorem script_grep_rule_determines_manager
    (P : Parsers) (r : RepoFiles) (m : Manager)
    (h1 : r.packageJsonExists = true)
    (h2 : P.parsePackageJson r.rawPackageJson = some ⟨none⟩)
    (h3 : r.packageLockExists = false) (h4 : r.shrinkwrapExists = false)
    (h5 : r.yarnLockExists = false) (h6 : r.pnpmLockExists = false)
    (h7 : r.bunLockbExists = false) (h8 : r.bunLockExists = false)
    (hm : scriptGrepRule r.rawPackageJson = some m) :
    classifyRepo P r =
      Except.ok
        { stats := { nodejs := 1, non_nodejs := 0, uses_corepack := 0,
                     does_not_use_corepack := 1, has_lockfile := 0,
                     does_not_have_lockfile := 1 },
          managers := ManagerDelta.one m,
          versionBump := none } := by
  rw [classify_reaches_fallbackGrep P r h1 h2 h3 h4 h5 h6 h7 h8]
  simp [fallbackGrep, scriptGrep_eq, hm, fallbackOutcome, addStats, StatsDelta.add,
    dnucStats, nodejsStats, StatsDelta.zero]

/-- C5 witness: a `package.json` mentioning `yarn run` is classified with
manager `unknown` and no version, via the amended theorem. -/
theorem script_grep_rule_determines_manager_witness :
    (yarnRunRepo.packageJsonExists = true ∧
     yarnRunParsers.parsePackageJson yarnRunRepo.rawPackageJson = some ⟨none⟩ ∧
     scriptGrepRule yarnRunRepo.rawPackageJson = some Manager.unknown) ∧
      classifyRepo yarnRunParsers yarnRunRepo =
        Except.ok
          { stats := { nodejs := 1, non_nodejs := 0, uses_corepack := 0,
                       does_not_use_corepack := 1, has_lockfile := 0,
                       does_not_have_lockfile := 1 },
            managers := ManagerDelta.one Manager.unknown,
            versionBump := none } :=
  ⟨⟨rfl, by decide, by decide⟩,
   script_grep_rule_determines_manager yarnRunParsers yarnRunRepo Manager.unknown
     rfl (by decide) rfl rfl rfl rfl rfl rfl (by decide)⟩

/-! ### C6 -/

/-- C6 counterexample: a `CONTRIBUTING.md` saying `bun i` yields `unknown`,
not Bun — the code's Bun regex for the documentation greps is
`bun (install|run|test)`, not the bare `bun i` the claim asserts. -/
theorem doc_grep_bun_i_not_matched :
    classifyRepo plainPkgParsers bunIRepo =
      Except.ok
        { stats := { nodejs := 1, non_nodejs := 0, uses_corepack := 0,
                     does_not_use_corepack := 1, has_lockfile := 0,
                     does_not_have_lockfile := 1 },
          managers := { npm := 0, yarn_classic := 0, yarn_modern := 0,
                        pnpm := 0, bun := 0, unknown := 1 },
          versionBump := none } ∧
      matchI bunIRepo.rawContributing "bun i" = true := by
  decide

/-- C6 (amended): after an unmatched script grep, `CONTRIBUTING.md` (when
present) and then `.github/workflows/ci.yml` (when present) are grepped with
npm `npm (ci|install|run|test)`, Yarn bare `yarn` mention (yielding manager
`unknown`), pnpm `pnpm (install|run|test)`, Bun `bun (install|run|test)`,
first match wins in that order. -/
theorem doc_grep_rule_determines_manager
    (P : Parsers) (r : RepoFiles) (m : Manager)
    (h1 : r.packageJsonExists = true)
    (h2 : P.parsePackageJson r.rawPackageJson = some ⟨none⟩)
    (h3 : r.packageLockExists = false) (h4 : r.shrinkwrapExists = false)
    (h5 : r.yarnLockExists = false) (h6 : r.pnpmLockExists = false)
    (h7 : r.bunLockbExists = false) (h8 : r.bunLockExists = false)
    (h9 : scriptGrepRule r.rawPackageJson = none) :
    (r.contributingExists = true → docGrepRule r.rawContributing = some m →
        classifyRepo P r =
          Except.ok
            { stats := { nodejs := 1, non_nodejs := 0, uses_corepack := 0,
                         does_not_use_corepack := 1, has_lockfile := 0,
                         does_not_have_lockfile := 1 },
              managers := ManagerDelta.one m,
              versionBump := none }) ∧
      (r.contributingExists = true → docGrepRule r.rawContributing = none →
          r.ciYmlExists = true → docGrepRule r.rawCiYml = some m →
        classifyRepo P r =
          Except.ok
            { stats := { nodejs := 1, non_nodejs := 0, uses_corepack := 0,
                         does_not_use_corepack := 1, has_lockfile := 0,
                         does_not_have_lockfile := 1 },
              managers := ManagerDelta.one m,
              versionBump := none }) ∧
      (r.contributingExists = false → r.ciYmlExists = true → docGrepRule r.rawCiYml = some m →
        classifyRepo P r =
          Except.ok
            { stats := { nodejs := 1, non_nodejs := 0, uses_corepack := 0,
                         does_not_use_corepack := 1, has_lockfile := 0,
                         does_not_have_lockfile := 1 },
              managers := ManagerDelta.one m,
              versionBump := none }) := by
  have hred := classify_reaches_fallbackGrep P r h1 h2 h3 h4 h5 h6 h7 h8
  refine ⟨?_, ?_, ?_⟩
  · intro hc hd
    rw [hred]
    simp [fallbackGrep, scriptGrep_eq, h9, hc, docGrep_eq, hd, fallbackOutcome, addStats,
      StatsDelta.add, dnucStats, nodejsStats, StatsDelta.zero]
  · intro hc hd hcy hdy
    rw [hred]
    simp [fallbackGrep, scriptGrep_eq, h9, hc, hcy, docGrep_eq, hd, hdy, fallbackOutcome,
      addStats, StatsDelta.add, dnucStats, nodejsStats, StatsDelta.zero]
  · intro hc hcy hdy
    rw [hred]
    simp [fallbackGrep, scriptGrep_eq, h9, hc, hcy, docGrep_eq, hdy, fallbackOutcome,
      addStats, StatsDelta.add, dnucStats, nodejsStats, StatsDelta.zero]

/-- C6 witness: a `CONTRIBUTING.md` saying `bun run dev` yields Bun, via the
first conjunct of the amended theorem. -/
theorem doc_grep_rule_determines_manager_witness :
    (bunRunRepo.packageJsonExists = true ∧
     plainPkgParsers.parsePackageJson bunRunRepo.rawPackageJson = some ⟨none⟩ ∧
     scriptGrepRule bunRunRepo.rawPackageJson = none ∧
     bunRunRepo.contributingExists = true ∧
     docGrepRule bunRunRepo.rawContributing = some Manager.bun) ∧
      classifyRepo plainPkgParsers bunRunRepo =
        Except.ok
          { stats := { nodejs := 1, non_nodejs := 0, uses_corepack := 0,
                       does_not_use_corepack := 1, has_lockfile := 0,
                       does_not_have_lockfile := 1 },
            managers := ManagerDelta.one Manager.bun,
            versionBump := none } :=
  ⟨⟨rfl, by decide, by decide, rfl, by decide⟩,
   (doc_grep_rule_determines_manager plainPkgParsers bunRunRepo Manager.bun
       rfl (by decide) rfl rfl rfl rfl rfl rfl (by decide)).1 rfl (by decide)⟩

/-! ### C7 -/

/-- C7: when `package-lock.json` fails to parse, exactly one bounded recovery
is attempted on the text built from the first 5 lines sliced at the last
comma with a closing brace appended; if the re-parse also fails,
classification throws an error naming that recovery text, and if it
succeeds, classification proceeds normally on the recovered object. -/
theorem package_lock_recovery_behavior
    (P : Parsers) (r : RepoFiles)
    (h1 : r.packageJsonExists = true)
    (h2 : P.parsePackageJson r.rawPackageJson = some ⟨none⟩)
    (h3 : r.packageLockExists = true)
    (h4 : P.parsePackageLock r.rawPackageLock = none) :
    (P.parsePackageLock (recoverLockText r.rawPackageLock) = none →
        classifyRepo P r =
          Except.error (ClassErr.invalidPackageLock (recoverLockText r.rawPackageLock))) ∧
      ∀ lv, P.parsePackageLock (recoverLockText r.rawPackageLock) = some lv →
        classifyRepo P r =
          Except.ok
            { stats := { nodejs := 1, non_nodejs := 0, uses_corepack := 0,
                         does_not_use_corepack := 1, has_lockfile := 1,
                         does_not_have_lockfile := 0 },
              managers := ManagerDelta.one Manager.npm,
              versionBump := some (Manager.npm, npmLockLabel lv) } := by
  constructor
  · intro hr
    simp [classifyRepo, classifyParsed, markerCascade, packageLockBranch, h1, h2, h3, h4, hr,
      Except.map]
  · intro lv hr
    simp [classifyRepo, classifyParsed, markerCascade, packageLockBranch, h1, h2, h3, h4, hr,
      Except.map, lockVersionOutcome, addStats, StatsDelta.add, dnucStats, nodejsStats,
      StatsDelta.zero]

/-- C7 witness: a lockfile truncated after `"packages": \x7b` recovers to a
valid 5-line object whose `lockfileVersion` is `2`, and classification
proceeds normally on it. -/
theorem package_lock_recovery_behavior_witness :
    (truncatedLockRepo.packageJsonExists = true ∧
     truncatedLockParsers.parsePackageJson truncatedLockRepo.rawPackageJson = some ⟨none⟩ ∧
     truncatedLockRepo.packageLockExists = true ∧
     truncatedLockParsers.parsePackageLock truncatedLockRepo.rawPackageLock = none ∧
     truncatedLockParsers.parsePackageLock (recoverLockText truncatedLockRepo.rawPackageLock) =
       some ⟨some 2⟩) ∧
      classifyRepo truncatedLockParsers truncatedLockRepo =
        Except.ok
          { stats := { nodejs := 1, non_nodejs := 0, uses_corepack := 0,
                       does_not_use_corepack := 1, has_lockfile := 1,
                       does_not_have_lockfile := 0 },
            managers := ManagerDelta.one Manager.npm,
            versionBump := some (Manager.npm, npmLockLabel ⟨some 2⟩) } :=
  ⟨⟨rfl, by decide, rfl, by decide, by decide⟩,
   (package_lock_recovery_behavior truncatedLockParsers truncatedLockRepo
       rfl (by decide) rfl (by decide)).2 ⟨some 2⟩ (by decide)⟩

/-! ### C8 -/

/-- C8 counterexample: a `package.json` whose `packageManager` field is the
empty string is present yet falsy, so the Corepack branch is skipped
entirely: no fatal error is raised and the repository ends up silently
classified `unknown` (with `does_not_use_corepack` counted). -/
theorem empty_corepack_field_silently_skipped :
    emptyCorepackParsers.parsePackageJson emptyCorepackRepo.rawPackageJson = some ⟨some ""⟩ ∧
      classifyRepo emptyCorepackParsers emptyCorepackRepo =
        Except.ok
          { stats := { nodejs := 1, non_nodejs := 0, uses_corepack := 0,
                       does_not_use_corepack := 1, has_lockfile := 0,
                       does_not_have_lockfile := 1 },
            managers := { npm := 0, yarn_classic := 0, yarn_modern := 0,
                          pnpm := 0, bun := 0, unknown := 1 },
            versionBump := none } := by
  decide

/-- C8 (amended): for a *non-empty* `packageManager` value, classification
throws a fatal error whenever no `@<digits>` (optionally `@v<digits>`) token
is extractable, or the value matches none of the five tool patterns; an
empty (falsy) value is instead treated as if the field were absent. -/
theorem unrecognized_corepack_declaration_is_fatal
    (P : Parsers) (r : RepoFiles) (pm : String)
    (h1 : r.packageJsonExists = true)
    (h2 : P.parsePackageJson r.rawPackageJson = some ⟨some pm⟩)
    (h3 : pm ≠ "")
    (hbad : extractAtVersion pm = none ∨ corepackPatternMatches pm = false) :
    isFatal (classifyRepo P r) = true := by
  have hred : classifyRepo P r = (corepackBranch pm).map (fun o => addStats o nodejsStats) := by
    simp [classifyRepo, classifyParsed, h1, h2, h3]
  rw [hred]
  rcases hbad with hv | hp
  · simp [corepackBranch, hv, Except.map, isFatal]
  · cases hx : extractAtVersion pm with
    | none => simp [corepackBranch, hx, Except.map, isFatal]
    | some v =>
      simp only [corepackPatternMatches, Bool.or_eq_false_iff] at hp
      obtain ⟨⟨⟨⟨hn, hy1⟩, hym⟩, hpn⟩, hb⟩ := hp
      simp [corepackBranch, hx, hn, hy1, hym, hpn, hb, Except.map, isFatal]

/-- C8 witness: `packageManager: "foo@2"` (version extractable, no tool
pattern matches) is a fatal error, via the amended theorem. -/
theorem unrecognized_corepack_declaration_is_fatal_witness :
    (fooCorepackRepo.packageJsonExists = true ∧
     fooCorepackParsers.parsePackageJson fooCorepackRepo.rawPackageJson = some ⟨some "foo@2"⟩ ∧
     corepackPatternMatches "foo@2" = false) ∧
      isFatal (classifyRepo fooCorepackParsers fooCorepackRepo) = true :=
  ⟨⟨rfl, by decide, by decide⟩,
   unrecognized_corepack_declaration_is_fatal fooCorepackParsers fooCorepackRepo "foo@2"
     rfl (by decide) (by decide) (Or.inr (by decide))⟩

/-! ### C9 -/

/-- C9: a repository with no `package.json` increments `non_nodejs` exactly
once and contributes nothing to any of the six manager counters or any
version-histogram bucket. -/
theorem no_package_json_counts_non_nodejs_only (P : Parsers) (r : RepoFiles)
    (h : r.packageJsonExists = false) :
    classifyRepo P r =
      Except.ok
        { stats := { nodejs := 0, non_nodejs := 1, uses_corepack := 0,
                     does_not_use_corepack := 0, has_lockfile := 0,
                     does_not_have_lockfile := 0 },
          managers := { npm := 0, yarn_classic := 0, yarn_modern := 0,
                        pnpm := 0, bun := 0, unknown := 0 },
          versionBump := none } := by
  simp only [classifyRepo, h, Bool.false_eq_true, if_false]
  rfl

/-- C9 witness: the theorem applied to the empty repository. -/
theorem no_package_json_counts_non_nodejs_only_witness :
    emptyRepo.packageJsonExists = false ∧
      classifyRepo noParsers emptyRepo =
        Except.ok
          { stats := { nodejs := 0, non_nodejs := 1, uses_corepack := 0,
                       does_not_use_corepack := 0, has_lockfile := 0,
                       does_not_have_lockfile := 0 },
            managers := { npm := 0, yarn_classic := 0, yarn_modern := 0,
                          pnpm := 0, bun := 0, unknown := 0 },
            versionBump := none } :=
  ⟨rfl, no_package_json_counts_non_nodejs_only noParsers emptyRepo rfl⟩

/-! ### C10 -/

/-- C10: when `package.json` exists but fails to parse, classification is
exactly the marker cascade on the raw text plus a single `nodejs` increment:
neither `uses_corepack` nor `does_not_use_corepack` moves, while `nodejs`
increments — so `nodejs` need not equal their sum. -/
theorem invalid_package_json_skips_corepack_counters
    (P : Parsers) (r : RepoFiles)
    (h1 : r.packageJsonExists = true)
    (h2 : P.parsePackageJson r.rawPackageJson = none) :
    classifyRepo P r = (markerCascade P r).map (fun o => addStats o nodejsStats) ∧
      ∀ o, classifyRepo P r = Except.ok o →
        o.stats.uses_corepack = 0 ∧ o.stats.does_not_use_corepack = 0 ∧ o.stats.nodejs = 1 := by
  have hred : classifyRepo P r = (markerCascade P r).map (fun o => addStats o nodejsStats) := by
    simp [classifyRepo, classifyParsed, h1, h2]
  refine ⟨hred, ?_⟩
  intro o ho
  rw [hred] at ho
  cases hmc : markerCascade P r with
  | error e => rw [hmc] at ho; simp [Except.map] at ho
  | ok o0 =>
    rw [hmc] at ho
    simp only [Except.map] at ho
    obtain ⟨hu, hd, hn⟩ := markerCascade_corepack_counters P r o0 hmc
    injection ho with ho2
    subst ho2
    simp [addStats, StatsDelta.add, nodejsStats, StatsDelta.zero, hu, hd, hn]

/-- C10 witness: the theorem applied to a repository whose `package.json` is
not valid JSON. -/
theorem invalid_package_json_skips_corepack_counters_witness :
    (invalidPkgRepo.packageJsonExists = true ∧
     noParsers.parsePackageJson invalidPkgRepo.rawPackageJson = none) ∧
      classifyRepo noParsers invalidPkgRepo =
        (markerCascade noParsers invalidPkgRepo).map (fun o => addStats o nodejsStats) :=
  ⟨⟨rfl, rfl⟩, (invalid_package_json_skips_corepack_counters noParsers invalidPkgRepo rfl rfl).1⟩
